import Mathlib

/-!
Verification of the pa11y-backend scan orchestration engine.

JavaScript strings are shallowly embedded as lists of characters
(`Str := List Char`); JS string operations (`startsWith` as
`List.isPrefixOf`, `includes`, `toLowerCase`, and the relational
operators, which JS evaluates lexicographically by code unit) are defined
below on that representation.  The browser page, the DOM, the DNS
resolver and the two audit engines are external collaborators of the code
under test; they are modelled as explicit oracles (`PageModel`,
`ScanEnv`), and every function of the repository (`isPrivateIp`,
`getElementScreenshot`, `runScan`, `canScanToday`, the public-scan
route handler) is translated from `src/utils/scanRunner.js`,
`src/utils/db.js` and `src/index.js`.
-/

abbrev Str := List Char

/-- Coerce a Lean string literal to the `List Char` representation. -/
def str (s : String) : Str := s.toList

/-- JS `a < b` on strings: lexicographic comparison by code unit. -/
def strLt : Str → Str → Bool
  | _, [] => false
  | [], _ :: _ => true
  | a :: as, b :: bs =>
    if a.toNat < b.toNat then true
    else if b.toNat < a.toNat then false
    else strLt as bs

/-- JS `a <= b` on strings (equivalently `!(b < a)`). -/
def strLe (a b : Str) : Bool := !(strLt b a)

/-- JS `hay.includes(needle)`: substring test. -/
def containsSub : Str → Str → Bool
  | [], n => n == ([] : Str)
  | h :: t, n => n.isPrefixOf (h :: t) || containsSub t n

/-- JS `s.toLowerCase()` (ASCII-faithful). -/
def jsLower (s : Str) : Str := s.map Char.toLower

/-- Split a character list at every occurrence of `c`, keeping empty parts
(the behaviour of JS `s.split(c)`). -/
def splitCh (c : Char) : Str → List Str
  | [] => [[]]
  | x :: xs =>
    if x = c then [] :: splitCh c xs
    else
      match splitCh c xs with
      | [] => [[x]]
      | p :: ps => (x :: p) :: ps

/-- Decimal digit character. -/
def digitChar (d : Nat) : Char := Char.ofNat (48 + d)

/-- Decimal representation of a natural number below 1000 (the octet range
used by the dotted-quad constructions), as JS `String(n)` produces it. -/
def natToStr (n : Nat) : Str :=
  if n < 10 then [digitChar n]
  else if n < 100 then [digitChar (n / 10), digitChar (n % 10)]
  else [digitChar (n / 100), digitChar (n / 10 % 10), digitChar (n % 10)]

/-- The dotted-quad string `a.b.c.d`. -/
def ipv4Str (a b c d : Nat) : Str :=
  natToStr a ++ '.' :: (natToStr b ++ '.' :: (natToStr c ++ '.' :: natToStr d))

def isDigitCh (c : Char) : Bool := '0' ≤ c && c ≤ '9'

/-- Numeric value of a digit string. -/
def strVal (p : Str) : Nat := p.foldl (fun a c => a * 10 + (c.toNat - 48)) 0

/-- One octet of a dotted quad as accepted by Node `net.isIPv4`:
one to three digits, no leading zero, value at most 255. -/
def validOctet (p : Str) : Bool :=
  !p.isEmpty && p.length ≤ 3 && p.all isDigitCh &&
    (p.length == 1 || !(p.head? == some '0')) && strVal p ≤ 255

/-- Node `net.isIPv4`. -/
def isIPv4 (s : Str) : Bool :=
  match splitCh '.' s with
  | [a, b, c, d] => validOctet a && validOctet b && validOctet c && validOctet d
  | _ => false

def isHexDigitCh (c : Char) : Bool :=
  isDigitCh c || ('a' ≤ c && c ≤ 'f') || ('A' ≤ c && c ≤ 'F')

/-- A 1-4 hex digit IPv6 group. -/
def hexSeg (p : Str) : Bool := !p.isEmpty && p.length ≤ 4 && p.all isHexDigitCh

/-- Characters allowed in an IPv6 zone id by Node's validator. -/
def zoneChar (c : Char) : Bool :=
  isDigitCh c || c.isAlpha || c == '-' || c == '.' || c == ':'

/-- Split an address at its first percent sign (zone separator). -/
def breakAtPercent : Str → Str × Option Str
  | [] => ([], none)
  | c :: t =>
    if c = '%' then ([], some t)
    else
      let (a, z) := breakAtPercent t
      (c :: a, z)

/-- Count the group slots of a run of colon-separated parts: each hex group
is one slot, a trailing dotted-quad is two.  `none` when some part is
neither (in particular when a part is empty). -/
def groupSlots (allowV4 : Bool) : List Str → Option Nat
  | [] => some 0
  | [p] =>
    if allowV4 && isIPv4 p then some 2
    else if hexSeg p then some 1
    else none
  | p :: rest =>
    if hexSeg p then (groupSlots allowV4 rest).map (· + 1) else none

/-- Structural equivalent of Node's IPv6 address grammar, on the parts
produced by splitting at every colon. -/
def ipv6Parts (ps : List Str) : Bool :=
  match ps with
  | [[], [], []] => true
  | [] :: [] :: rest =>
    (match groupSlots true rest with
     | some k => decide (k ≤ 7)
     | none => false)
  | _ =>
    match ps.reverse with
    | [] :: [] :: frontRev =>
      (match groupSlots false frontRev.reverse with
       | some k => decide (1 ≤ k && k ≤ 7) = true && frontRev.reverse.length ≥ 1
       | none => false)
    | [] :: _ => false
    | _ =>
      if ps.any List.isEmpty then
        match breakAtEmptyPart ps with
        | some (l, r) =>
          (match groupSlots false l, groupSlots true r with
           | some kl, some kr => decide (1 ≤ kl) && decide (1 ≤ kr) && decide (kl + kr ≤ 7)
           | _, _ => false)
        | none => false
      else groupSlots true ps == some 8
where
  breakAtEmptyPart : List Str → Option (List Str × List Str)
    | [] => none
    | p :: t =>
      if p.isEmpty then some ([], t)
      else (breakAtEmptyPart t).map (fun lr => (p :: lr.1, lr.2))

/-- Node `net.isIPv6`: optional zone id after a percent sign, then the
textual IPv6 grammar (full form, one double-colon compression, optional
dotted-quad tail). -/
def isIPv6 (s0 : Str) : Bool :=
  let az := breakAtPercent s0
  let zoneOk :=
    match az.2 with
    | none => true
    | some z => !z.isEmpty && z.all zoneChar
  zoneOk && ipv6Parts (splitCh ':' az.1)

/-- `isPrivateIp` from `src/utils/scanRunner.js` (lines 413-433).  Note
that the 172.16/12 test is written in the source as a JS string relational
comparison, which is lexicographic, and the IPv6 tests are textual. -/
def isPrivateIp (ip : Str) : Bool :=
  if isIPv4 ip then
    (str "10.").isPrefixOf ip ||
    (str "192.168.").isPrefixOf ip ||
    (str "127.").isPrefixOf ip ||
    (str "169.254.").isPrefixOf ip ||
    (strLe (str "172.16.0.0") ip && strLe ip (str "172.31.255.255"))
  else if isIPv6 ip then
    ip == str "::1" || (str "fc").isPrefixOf ip || (str "fd").isPrefixOf ip
  else false

/-- Modelled from the spec: numeric membership of the four octets in the
blocked IPv4 ranges 10/8, 172.16/12, 192.168/16, 127/8, 169.254/16
(section 4.1 of the spec).  Used to compare the code's classifier with the
specified ranges. -/
def specPrivateIPv4 (a b c d : Nat) : Prop :=
  a ≤ 255 ∧ b ≤ 255 ∧ c ≤ 255 ∧ d ≤ 255 ∧
    (a = 10 ∨ (a = 172 ∧ 16 ≤ b ∧ b ≤ 31) ∨ (a = 192 ∧ b = 168) ∨
      a = 127 ∨ (a = 169 ∧ b = 254))

instance (a b c d : Nat) : Decidable (specPrivateIPv4 a b c d) := by
  unfold specPrivateIPv4; infer_instance

/-! ## Evidence capture (`getElementScreenshot`, scanRunner.js lines 72-181)

The page is an oracle: `PageModel.step sel i` is the observable outcome of
the i-th capture attempt against selector `sel` (an exception somewhere in
the attempt body, no matching element, a missing bounding box, or an
element with its box, the observation made of its parent, and whether the
scroll/highlight/screenshot steps succeed).  `viewportShotOk` says whether
the last-resort full-viewport screenshot succeeds.  A `ParentObs.missing`
parent throws in the source (the handle returned for a null
`parentElement` has no `boundingBox` method), which the model reflects by
routing that case to the catch path. -/

structure Box where
  x : Int
  y : Int
  width : Int
  height : Int
deriving DecidableEq

inductive Evidence where
  | element (clip : Box)
  | viewport
deriving DecidableEq

inductive ParentObs where
  | missing
  | noBox
  | box (b : Box)
deriving DecidableEq

inductive AttemptOutcome where
  | throwEx
  | noElement
  | noBox
  | found (box : Box) (parent : ParentObs) (shotOk : Bool)
deriving DecidableEq

structure PageModel where
  step : Str → Nat → AttemptOutcome
  viewportShotOk : Bool

structure CaptureOpts where
  minSize : Int
  maxAttempts : Nat
  viewportPadding : Int
  includeParent : Bool
deriving DecidableEq

/-- The default option values of `getElementScreenshot`. -/
def defaultOpts : CaptureOpts := ⟨10, 3, 20, true⟩

/-- Result of a capture call, instrumented with counters: loop iterations
begun (`tries`), parent hops taken (`hops`), and full-viewport fallback
attempts (`viewShots`). -/
structure CapResult where
  res : Option Evidence
  tries : Nat
  hops : Nat
  viewShots : Nat
deriving DecidableEq

/-- The screenshot clip of the source: `x`/`y` padded and clamped at 0,
width and height grown by twice the padding. -/
def clipBox (b : Box) (pad : Int) : Box :=
  ⟨max 0 (b.x - pad), max 0 (b.y - pad), b.width + pad * 2, b.height + pad * 2⟩

/-- The last-attempt fallback: a full-viewport screenshot, or null if even
that throws. -/
def vpFallback (p : PageModel) : CapResult :=
  if p.viewportShotOk then ⟨some .viewport, 1, 0, 1⟩ else ⟨none, 1, 0, 1⟩

def bumpTry (t : CapResult) : CapResult := { t with tries := t.tries + 1 }

/-- The attempt loop of `getElementScreenshot` with `includeParent` false
(the configuration used for the single recursive call): `r` is the number
of attempts remaining, `idx` the current attempt index. -/
def loopNP (p : PageModel) (sel : Str) (minSize pad : Int) : Nat → Nat → CapResult
  | 0, _ => ⟨none, 0, 0, 0⟩
  | r + 1, idx =>
    match p.step sel idx with
    | .noElement => ⟨none, 1, 0, 0⟩
    | .noBox => ⟨none, 1, 0, 0⟩
    | .found b _ shotOk =>
      if b.width < minSize ∨ b.height < minSize then ⟨none, 1, 0, 0⟩
      else if shotOk then ⟨some (.element (clipBox b pad)), 1, 0, 0⟩
      else if r = 0 then vpFallback p
      else bumpTry (loopNP p sel minSize pad r (idx + 1))
    | .throwEx =>
      if r = 0 then vpFallback p
      else bumpTry (loopNP p sel minSize pad r (idx + 1))

/-- The selector the source builds for the parent retry: the original
selector with the literal suffix `\x20> ..` appended. -/
def parentSel (sel : Str) : Str := sel ++ str " > .."

/-- The attempt loop of `getElementScreenshot` with `includeParent` true:
on an element smaller than `minSize` whose parent has a larger box, the
source returns the recursive call on `parentSel sel` with parent fallback
disabled and a fresh attempt budget `maxA`. -/
def loopWP (p : PageModel) (sel : Str) (minSize pad : Int) (maxA : Nat) : Nat → Nat → CapResult
  | 0, _ => ⟨none, 0, 0, 0⟩
  | r + 1, idx =>
    match p.step sel idx with
    | .noElement => ⟨none, 1, 0, 0⟩
    | .noBox => ⟨none, 1, 0, 0⟩
    | .found b par shotOk =>
      if b.width < minSize ∨ b.height < minSize then
        match par with
        | .missing =>
          if r = 0 then vpFallback p
          else bumpTry (loopWP p sel minSize pad maxA r (idx + 1))
        | .noBox => ⟨none, 1, 0, 0⟩
        | .box pb =>
          if pb.width > b.width ∨ pb.height > b.height then
            let t := loopNP p (parentSel sel) minSize pad maxA 0
            ⟨t.res, t.tries + 1, t.hops + 1, t.viewShots⟩
          else ⟨none, 1, 0, 0⟩
      else if shotOk then ⟨some (.element (clipBox b pad)), 1, 0, 0⟩
      else if r = 0 then vpFallback p
      else bumpTry (loopWP p sel minSize pad maxA r (idx + 1))
    | .throwEx =>
      if r = 0 then vpFallback p
      else bumpTry (loopWP p sel minSize pad maxA r (idx + 1))

/-- `getElementScreenshot` from scanRunner.js, instrumented. -/
def getElementScreenshot (p : PageModel) (sel : Str) (o : CaptureOpts) : CapResult :=
  if o.includeParent then loopWP p sel o.minSize o.viewportPadding o.maxAttempts o.maxAttempts 0
  else loopNP p sel o.minSize o.viewportPadding o.maxAttempts 0

/-- A standards-compliant page holding a 4x20 element at `#icon` whose
parent is 200x100: querying the malformed selector built by the parent
retry (`#icon > ..` is not valid CSS) makes `querySelector` throw, which
the oracle reflects as `throwEx`; every other selector matches nothing.
The full-viewport screenshot succeeds. -/
def pageC3 : PageModel :=
  { step := fun s _ =>
      if s == str "#icon" then .found ⟨50, 50, 4, 20⟩ (.box ⟨0, 0, 200, 100⟩) true
      else if s == parentSel (str "#icon") then .throwEx
      else .noElement
    viewportShotOk := true }

/-- A page on which no selector matches any element. -/
def pageNone : PageModel := ⟨fun _ _ => .noElement, true⟩

/-- Invariant of the no-parent-fallback loop: no hops, at most one
viewport fallback, at most `r` iterations. -/
def NPgood (r : Nat) (t : CapResult) : Prop :=
  t.hops = 0 ∧ t.viewShots ≤ 1 ∧ t.tries ≤ r

/-- Invariant of the parent-fallback loop: at most one hop, at most one
viewport fallback, and at most `r` iterations plus a fresh budget of `M`
iterations if the hop was taken. -/
def WPgood (r M : Nat) (t : CapResult) : Prop :=
  t.hops ≤ 1 ∧ t.viewShots ≤ 1 ∧ t.tries ≤ r + t.hops * M

/-! ## Scan orchestration (`runScan`, scanRunner.js lines 183-411)

`ScanEnv` packages the outcomes of every external interaction of one run:
URL parsing, DNS resolution, navigation, the initial viewport screenshot,
the two engines (as functions of the ruleset identifier they are invoked
with), the page oracle used for evidence capture, the rendered page
content and visible body text inspected by the challenge detector, and
the outcome of the three regex-based detector signals (modelled as an
opaque boolean since regex matching is outside the embedding).
`RunOutcome` pairs the returned/thrown value with flags recording whether
the browser was launched and whether the two engines were invoked. -/

structure Pa11yIssue where
  code : Nat
  selector : Str
deriving DecidableEq

structure Pa11yOut where
  issues : List Pa11yIssue
  passed : List Nat
deriving DecidableEq

structure AxeNode where
  target : List Str
  info : Nat
deriving DecidableEq

structure AxeViolation where
  rule : Nat
  nodes : List AxeNode
deriving DecidableEq

structure AxeOut where
  violations : List AxeViolation
  passes : List Nat
deriving DecidableEq

structure Pa11ySection where
  issues : List (Pa11yIssue × Option Evidence)
  passed : List Nat
  error : Option Str
deriving DecidableEq

structure AxeViolationOut where
  rule : Nat
  nodes : List (AxeNode × Option Evidence)
deriving DecidableEq

structure AxeSection where
  violations : List AxeViolationOut
  passes : List Nat
  error : Option Str
deriving DecidableEq

structure ScanOutput where
  pa11y : Pa11ySection
  axe : AxeSection
  pageScreenshot : Option Str
deriving DecidableEq

inductive DnsErr where
  | notFound
  | other (msg : Str)
deriving DecidableEq

structure ScanEnv where
  urlHost : Option Str
  dns : Except DnsErr (List Str)
  gotoResult : Except Str Unit
  pageShot : Except Str Str
  pa11yRun : Str → Except Str Pa11yOut
  axeRun : Str → Except Str AxeOut
  page : PageModel
  content : Str
  bodyText : Str
  regexSignals : Bool

structure RunOutcome where
  result : Except Str ScanOutput
  browserLaunched : Bool
  pa11yInvoked : Bool
  axeInvoked : Bool

/-- The challenge-detection disjunction of scanRunner.js lines 358-384:
the ten lowercase substring signals plus the regex signals, the
spinner-with-short-body heuristic, and the suspicious-emptiness
heuristic. -/
def challengeDetected (env : ScanEnv) : Bool :=
  let lc := jsLower env.content
  let isCloudflare :=
    containsSub lc (str "cf-browser-verification") ||
    containsSub lc (str "attention required! | cloudflare") ||
    containsSub lc (str "challenge-form") ||
    containsSub lc (str "cloudflare ray id") ||
    containsSub lc (str "just a moment...") ||
    containsSub lc (str "checking your browser before accessing") ||
    containsSub lc (str "data-cf-settings") ||
    containsSub lc (str "data-cf-beacon") ||
    containsSub lc (str "ray id:") ||
    containsSub lc (str "please enable javascript and cookies to continue") ||
    env.regexSignals
  let onlySpinner :=
    (containsSub lc (str "cf-spinner") || containsSub lc (str "cloudflare")) &&
      env.bodyText.length < 20
  let isSuspiciouslyEmpty := env.bodyText.length < 20 && env.content.length < 2000
  isCloudflare || onlySpinner || isSuspiciouslyEmpty

/-- The Pa11y ruleset identifier chosen by runScan: `WCAG2AAA` exactly when
the argument is the string `AAA`, with the default parameter value `AA`
standing in when the argument is omitted. -/
def wcagStandardFor (lvl : Option Str) : Str :=
  if lvl.getD (str "AA") == str "AAA" then str "WCAG2AAA" else str "WCAG2AA"

/-- The axe tag chosen by runScan, same rule as `wcagStandardFor`. -/
def axeTagFor (lvl : Option Str) : Str :=
  if lvl.getD (str "AA") == str "AAA" then str "wcag2aaa" else str "wcag2aa"

/-- The SSRF-validation block at the start of runScan: URL parse errors
are rethrown, a DNS not-found becomes the invalid-domain message, other
DNS errors are rethrown, and any resolved address classified private
aborts with the forbidden-target message. -/
def validateTarget (env : ScanEnv) : Except Str Unit :=
  match env.urlHost with
  | none => .error (str "Invalid URL")
  | some _ =>
    match env.dns with
    | .error .notFound => .error (str "Invalid or unreachable domain.")
    | .error (.other m) => .error m
    | .ok addrs =>
      if addrs.any isPrivateIp then
        .error (str "Scanning internal/private IP addresses is not allowed for security reasons.")
      else .ok ()

/-- Attach evidence to Pa11y issues: a falsy (empty) selector gets a null
screenshot without invoking capture. -/
def attachPa11y (p : PageModel) (issues : List Pa11yIssue) :
    List (Pa11yIssue × Option Evidence) :=
  issues.map (fun i =>
    if i.selector == ([] : Str) then (i, none)
    else (i, (getElementScreenshot p i.selector defaultOpts).res))

/-- The selector of an axe node: the first target, or none when the target
list is empty or its head is the empty (falsy) string. -/
def nodeSelector (n : AxeNode) : Option Str :=
  match n.target with
  | [] => none
  | s :: _ => if s == ([] : Str) then none else some s

/-- Attach evidence to the nodes of each axe violation. -/
def attachAxe (p : PageModel) (vs : List AxeViolation) : List AxeViolationOut :=
  vs.map (fun v =>
    ⟨v.rule, v.nodes.map (fun n =>
      match nodeSelector n with
      | none => (n, none)
      | some s => (n, (getElementScreenshot p s defaultOpts).res))⟩)

/-- `runScan` from scanRunner.js.  The order of operations mirrors the
source: validation (before the browser is launched), navigation, the page
screenshot, both engines each in its own try/catch that substitutes an
empty result carrying the failure message, evidence attachment, and only
then challenge detection, whose thrown error is caught by the outer
catch-all, which returns a partial result (with the already populated axe
object kept unchanged, so the challenge message is dropped, and without
the pageScreenshot field). -/
def runScan (env : ScanEnv) (wcagLevel : Option Str) : RunOutcome :=
  match validateTarget env with
  | .error m => ⟨.error m, false, false, false⟩
  | .ok _ =>
    match env.gotoResult with
    | .error m =>
      ⟨.ok ⟨⟨[], [], none⟩, ⟨[], [], some m⟩, none⟩, true, false, false⟩
    | .ok _ =>
      let shot := match env.pageShot with | .ok s => some s | .error _ => none
      let p11 : Pa11ySection := match env.pa11yRun (wcagStandardFor wcagLevel) with
        | .ok o => ⟨attachPa11y env.page o.issues, o.passed, none⟩
        | .error m => ⟨[], [], some m⟩
      let axe : AxeSection := match env.axeRun (axeTagFor wcagLevel) with
        | .ok o => ⟨attachAxe env.page o.violations, o.passes, none⟩
        | .error m => ⟨[], [], some m⟩
      if challengeDetected env then
        ⟨.ok ⟨p11, axe, none⟩, true, true, true⟩
      else
        ⟨.ok ⟨p11, axe, shot.map (fun s => str "data:image/png;base64," ++ s)⟩, true, true, true⟩

/-! ## Persistence-store rate limit (`canScanToday`, db.js lines 165-171,
and the public-scan route of index.js lines 80-119) -/

structure Report where
  email : Str
  rtype : Str
  createdAt : Int
deriving DecidableEq

def maxOfList : List Int → Option Int
  | [] => none
  | x :: xs =>
    match maxOfList xs with
    | none => some x
    | some m => some (max x m)

def dayMs : Int := 24 * 60 * 60 * 1000

/-- The `findOne` sorted by descending `createdAt` over reports matching
the requester email and the public kind: the maximal creation time among
the matching reports. -/
def latestPublicCreatedAt (email : Str) (rs : List Report) : Option Int :=
  maxOfList ((rs.filter (fun r => r.email == email && r.rtype == str "public")).map
    (fun r => r.createdAt))

/-- `canScanToday` from db.js: true when there is no previous public
report for the requester, or the most recent one is strictly older than
24 hours. -/
def canScanToday (email : Str) (now : Int) (rs : List Report) : Bool :=
  match latestPublicCreatedAt email rs with
  | none => true
  | some t => decide (now - t > dayMs)

/-- The rate-limit section of the public-scan route: the limit check runs
first, and only when it passes is a pending public report appended. -/
def publicScanRequest (email : Str) (now : Int) (rs : List Report) : Bool × List Report :=
  if canScanToday email now rs then (true, rs ++ [⟨email, str "public", now⟩])
  else (false, rs)

/-! ## Concrete oracles used by witnesses and counterexamples -/

/-- A scan of a page whose rendered content is exactly the challenge
phrase and whose visible body text has length 8, with a public resolved
address, successful navigation and both engines succeeding. -/
def envC1 : ScanEnv :=
  { urlHost := some (str "example.com")
    dns := .ok [str "93.184.216.34"]
    gotoResult := .ok ()
    pageShot := .ok (str "SHOT")
    pa11yRun := fun _ => .ok ⟨[⟨1, str "h1"⟩], [7]⟩
    axeRun := fun _ => .ok ⟨[⟨5, [⟨[str "h1"], 2⟩]⟩], [9]⟩
    page := pageNone
    content := str "checking your browser before accessing"
    bodyText := str "abcdabcd"
    regexSignals := false }

def isOkB : Except Str ScanOutput → Bool
  | .ok _ => true
  | .error _ => false

/-- A scan whose hostname does not resolve. -/
def envA : ScanEnv :=
  { envC1 with urlHost := some (str "no-such-host.example"), dns := .error .notFound }

/-- A scan whose hostname resolves to a 10/8 address. -/
def envB : ScanEnv :=
  { envC1 with urlHost := some (str "intranet.local"), dns := .ok [str "10.0.0.5"] }

/-- A scan whose navigation times out. -/
def envC4 : ScanEnv :=
  { envC1 with gotoResult := .error (str "Navigation timeout of 90000 ms exceeded") }

/-- A scan of an unremarkable page on which the Pa11y engine throws while
the axe engine succeeds. -/
def envC6a : ScanEnv :=
  { envC1 with
    content := str "a perfectly ordinary page with plenty of markup and text on it, long enough not to look empty"
    bodyText := str "plenty of visible body text here"
    pa11yRun := fun _ => .error (str "Pa11y crashed") }

def rsW : List Report := [⟨str "u@example.com", str "public", 0⟩]

/-! ## Helper lemmas -/

theorem prefix_append_split (p X r : Str) :
    p.isPrefixOf (X ++ r) =
      (p.isPrefixOf X || (X.isPrefixOf p && (p.drop X.length).isPrefixOf r)) := by
  induction X generalizing p with
  | nil =>
    cases p with
    | nil => simp [List.isPrefixOf]
    | cons x xs => simp [List.isPrefixOf]
  | cons y X ih =>
    cases p with
    | nil => simp [List.isPrefixOf]
    | cons x xs =>
      by_cases hxy : x = y
      · subst hxy
        simp only [List.cons_append, List.isPrefixOf, beq_self_eq_true, Bool.true_and,
          List.length_cons, List.drop_succ_cons]
        exact ih xs
      · have h1 : (x == y) = false := by simp [hxy]
        have h2 : (y == x) = false := by simp [Ne.symm hxy]
        simp [List.cons_append, List.isPrefixOf, h1, h2]

theorem isPrefixOf_append_self (p r : Str) : p.isPrefixOf (p ++ r) = true := by
  induction p with
  | nil => simp [List.isPrefixOf]
  | cons x xs ih => simp [List.isPrefixOf, ih]

theorem prefix_append_left (u v w : Str) :
    (u ++ v).isPrefixOf (u ++ w) = v.isPrefixOf w := by
  induction u with
  | nil => simp
  | cons x xs ih => simp [List.isPrefixOf, ih]

set_option maxRecDepth 4096 in
theorem decfact_10a : ∀ a, a < 256 → (str "10.").isPrefixOf (natToStr a ++ ['.']) = (a == 10) := by decide

set_option maxRecDepth 4096 in
theorem decfact_10b : ∀ a, a < 256 → (natToStr a ++ ['.']).isPrefixOf (str "10.") = (a == 10) := by decide

set_option maxRecDepth 4096 in
theorem decfact_127a : ∀ a, a < 256 → (str "127.").isPrefixOf (natToStr a ++ ['.']) = (a == 127) := by decide

set_option maxRecDepth 4096 in
theorem decfact_127b : ∀ a, a < 256 → (natToStr a ++ ['.']).isPrefixOf (str "127.") = (a == 127) := by decide

set_option maxRecDepth 4096 in
theorem decfact_168a : ∀ a, a < 256 → (str "168.").isPrefixOf (natToStr a ++ ['.']) = (a == 168) := by decide

set_option maxRecDepth 4096 in
theorem decfact_168b : ∀ a, a < 256 → (natToStr a ++ ['.']).isPrefixOf (str "168.") = (a == 168) := by decide

set_option maxRecDepth 4096 in
theorem decfact_254a : ∀ a, a < 256 → (str "254.").isPrefixOf (natToStr a ++ ['.']) = (a == 254) := by decide

set_option maxRecDepth 4096 in
theorem decfact_254b : ∀ a, a < 256 → (natToStr a ++ ['.']).isPrefixOf (str "254.") = (a == 254) := by decide

set_option maxRecDepth 4096 in
theorem decfact_192168a : ∀ a, a < 256 → (str "192.168.").isPrefixOf (natToStr a ++ ['.']) = false := by decide

set_option maxRecDepth 4096 in
theorem decfact_192168b : ∀ a, a < 256 → (natToStr a ++ ['.']).isPrefixOf (str "192.168.") = (a == 192) := by decide

set_option maxRecDepth 4096 in
theorem decfact_169254a : ∀ a, a < 256 → (str "169.254.").isPrefixOf (natToStr a ++ ['.']) = false := by decide

set_option maxRecDepth 4096 in
theorem decfact_169254b : ∀ a, a < 256 → (natToStr a ++ ['.']).isPrefixOf (str "169.254.") = (a == 169) := by decide

theorem octet_prefix_gen (p : Str) (a t : Nat) (r : Str)
    (h1 : p.isPrefixOf (natToStr a ++ ['.']) = (a == t))
    (h2 : (natToStr a ++ ['.']).isPrefixOf p = (a == t)) :
    p.isPrefixOf (natToStr a ++ '.' :: r) = (a == t) := by
  have hsplit : natToStr a ++ '.' :: r = (natToStr a ++ ['.']) ++ r := by simp
  rw [hsplit, prefix_append_split, h1, h2]
  cases hb : (a == t) <;> simp

theorem two_octet_prefix (p inner : Str) (t1 : Nat)
    (hA : ∀ x, x < 256 → p.isPrefixOf (natToStr x ++ ['.']) = false)
    (hB : ∀ x, x < 256 → (natToStr x ++ ['.']).isPrefixOf p = (x == t1))
    (hdrop : p.drop (natToStr t1 ++ ['.']).length = inner)
    (a b t2 : Nat) (ha : a < 256) (r : Str)
    (hinner : inner.isPrefixOf (natToStr b ++ '.' :: r) = (b == t2)) :
    p.isPrefixOf (natToStr a ++ '.' :: (natToStr b ++ '.' :: r)) = (a == t1 && b == t2) := by
  have hsplit : natToStr a ++ '.' :: (natToStr b ++ '.' :: r)
      = (natToStr a ++ ['.']) ++ (natToStr b ++ '.' :: r) := by simp
  rw [hsplit, prefix_append_split, hA a ha, hB a ha]
  by_cases h : a = t1
  · subst h
    rw [hdrop, hinner]
    simp
  · have hf : (a == t1) = false := by simp [h]
    simp [hf]

set_option maxRecDepth 4096 in
theorem decfact_dot : ∀ n, n < 256 → '.' ∉ natToStr n := by decide

set_option maxRecDepth 4096 in
theorem decfact_octet : ∀ n, n < 256 → validOctet (natToStr n) = true := by decide

theorem splitCh_append (c : Char) (A : Str) (h : c ∉ A) (rest : Str) :
    splitCh c (A ++ c :: rest) = A :: splitCh c rest := by
  induction A with
  | nil => simp [splitCh]
  | cons x xs ih =>
    have hx : ¬(x = c) := by
      intro hxc; exact h (hxc ▸ List.mem_cons_self x xs)
    have hxs : c ∉ xs := fun hm => h (List.mem_cons_of_mem x hm)
    rw [List.cons_append]
    simp only [splitCh, if_neg hx, ih hxs]

theorem splitCh_single (c : Char) (A : Str) (h : c ∉ A) : splitCh c A = [A] := by
  induction A with
  | nil => simp [splitCh]
  | cons x xs ih =>
    have hx : ¬(x = c) := by
      intro hxc; exact h (hxc ▸ List.mem_cons_self x xs)
    have hxs : c ∉ xs := fun hm => h (List.mem_cons_of_mem x hm)
    simp only [splitCh, if_neg hx, ih hxs]

theorem isIPv4_quad (a b c d : Nat) (ha : a < 256) (hb : b < 256) (hc : c < 256) (hd : d < 256) :
    isIPv4 (ipv4Str a b c d) = true := by
  unfold isIPv4 ipv4Str
  rw [splitCh_append '.' _ (decfact_dot a ha), splitCh_append '.' _ (decfact_dot b hb),
    splitCh_append '.' _ (decfact_dot c hc), splitCh_single '.' _ (decfact_dot d hd)]
  simp [decfact_octet a ha, decfact_octet b hb, decfact_octet c hc, decfact_octet d hd]

theorem isPrivateIp_quad (a b c d : Nat) (ha : a < 256) (hb : b < 256) (hc : c < 256) (hd : d < 256) :
    isPrivateIp (ipv4Str a b c d) =
      (a == 10 || (a == 192 && b == 168) || a == 127 || (a == 169 && b == 254) ||
        (strLe (str "172.16.0.0") (ipv4Str a b c d) &&
          strLe (ipv4Str a b c d) (str "172.31.255.255"))) := by
  unfold isPrivateIp
  rw [isIPv4_quad a b c d ha hb hc hd]
  simp only [if_true]
  unfold ipv4Str
  rw [octet_prefix_gen _ a 10 _ (decfact_10a a ha) (decfact_10b a ha),
    octet_prefix_gen _ a 127 _ (decfact_127a a ha) (decfact_127b a ha),
    two_octet_prefix (str "192.168.") (str "168.") 192 decfact_192168a decfact_192168b rfl
      a b 168 ha _ (octet_prefix_gen _ b 168 _ (decfact_168a b hb) (decfact_168b b hb)),
    two_octet_prefix (str "169.254.") (str "254.") 169 decfact_169254a decfact_169254b rfl
      a b 254 ha _ (octet_prefix_gen _ b 254 _ (decfact_254a b hb) (decfact_254b b hb))]

theorem loopNP_bound (p : PageModel) (sel : Str) (m pad : Int) :
    ∀ r idx, NPgood r (loopNP p sel m pad r idx) := by
  intro r
  induction r with
  | zero => intro idx; exact ⟨rfl, Nat.zero_le 1, Nat.le_refl 0⟩
  | succ n ih =>
    intro idx
    have hbase : ∀ res : Option Evidence, NPgood (n + 1) ⟨res, 1, 0, 0⟩ :=
      fun res => ⟨rfl, Nat.zero_le 1, Nat.le_add_left 1 n⟩
    have hvp : NPgood (n + 1) (vpFallback p) := by
      unfold vpFallback
      by_cases hv : p.viewportShotOk = true
      · rw [if_pos hv]; exact ⟨rfl, Nat.le_refl 1, Nat.le_add_left 1 n⟩
      · rw [if_neg hv]; exact ⟨rfl, Nat.le_refl 1, Nat.le_add_left 1 n⟩
    have hbump : ∀ t, NPgood n t → NPgood (n + 1) (bumpTry t) := by
      intro t ht
      exact ⟨ht.1, ht.2.1, by have := ht.2.2; simp only [bumpTry]; omega⟩
    cases hstep : p.step sel idx with
    | noElement => simp only [loopNP, hstep]; exact hbase none
    | noBox => simp only [loopNP, hstep]; exact hbase none
    | throwEx =>
      simp only [loopNP, hstep]
      by_cases hr : n = 0
      · rw [if_pos hr]; exact hvp
      · rw [if_neg hr]; exact hbump _ (ih (idx + 1))
    | found b par shotOk =>
      simp only [loopNP, hstep]
      by_cases hsmall : b.width < m ∨ b.height < m
      · rw [if_pos hsmall]; exact hbase none
      · rw [if_neg hsmall]
        by_cases hshot : shotOk = true
        · rw [if_pos hshot]; exact hbase _
        · rw [if_neg hshot]
          by_cases hr : n = 0
          · rw [if_pos hr]; exact hvp
          · rw [if_neg hr]; exact hbump _ (ih (idx + 1))

theorem loopWP_bound (p : PageModel) (sel : Str) (m pad : Int) (M : Nat) :
    ∀ r idx, WPgood r M (loopWP p sel m pad M r idx) := by
  intro r
  induction r with
  | zero =>
    intro idx
    refine ⟨Nat.zero_le 1, Nat.zero_le 1, ?_⟩
    show (0 : Nat) ≤ 0 + 0 * M
    omega
  | succ n ih =>
    intro idx
    have hbase : ∀ res : Option Evidence, WPgood (n + 1) M ⟨res, 1, 0, 0⟩ :=
      fun res => ⟨Nat.zero_le 1, Nat.zero_le 1, by show 1 ≤ n + 1 + 0 * M; omega⟩
    have hvp : WPgood (n + 1) M (vpFallback p) := by
      unfold vpFallback
      by_cases hv : p.viewportShotOk = true
      · rw [if_pos hv]
        exact ⟨Nat.zero_le 1, Nat.le_refl 1, by show 1 ≤ n + 1 + 0 * M; omega⟩
      · rw [if_neg hv]
        exact ⟨Nat.zero_le 1, Nat.le_refl 1, by show 1 ≤ n + 1 + 0 * M; omega⟩
    have hbump : ∀ t, WPgood n M t → WPgood (n + 1) M (bumpTry t) := by
      intro t ht
      refine ⟨ht.1, ht.2.1, ?_⟩
      have := ht.2.2
      simp only [bumpTry]
      omega
    have hnotsmall : ∀ (shotOk : Bool) (b : Box),
        WPgood (n + 1) M
          (if shotOk then (⟨some (.element (clipBox b pad)), 1, 0, 0⟩ : CapResult)
           else if n = 0 then vpFallback p
           else bumpTry (loopWP p sel m pad M n (idx + 1))) := by
      intro shotOk b
      by_cases hshot : shotOk = true
      · rw [if_pos hshot]; exact hbase _
      · rw [if_neg hshot]
        by_cases hr : n = 0
        · rw [if_pos hr]; exact hvp
        · rw [if_neg hr]; exact hbump _ (ih (idx + 1))
    cases hstep : p.step sel idx with
    | noElement => simp only [loopWP, hstep]; exact hbase none
    | noBox => simp only [loopWP, hstep]; exact hbase none
    | throwEx =>
      simp only [loopWP, hstep]
      by_cases hr : n = 0
      · rw [if_pos hr]; exact hvp
      · rw [if_neg hr]; exact hbump _ (ih (idx + 1))
    | found b par shotOk =>
      cases par with
      | missing =>
        simp only [loopWP, hstep]
        by_cases hsmall : b.width < m ∨ b.height < m
        · rw [if_pos hsmall]
          by_cases hr : n = 0
          · rw [if_pos hr]; exact hvp
          · rw [if_neg hr]; exact hbump _ (ih (idx + 1))
        · rw [if_neg hsmall]; exact hnotsmall shotOk b
      | noBox =>
        simp only [loopWP, hstep]
        by_cases hsmall : b.width < m ∨ b.height < m
        · rw [if_pos hsmall]; exact hbase none
        · rw [if_neg hsmall]; exact hnotsmall shotOk b
      | box pb =>
        simp only [loopWP, hstep]
        by_cases hsmall : b.width < m ∨ b.height < m
        · rw [if_pos hsmall]
          by_cases hbig : pb.width > b.width ∨ pb.height > b.height
          · rw [if_pos hbig]
            obtain ⟨g1, g2, g3⟩ := loopNP_bound p (parentSel sel) m pad M 0
            refine ⟨?_, g2, ?_⟩
            · show (loopNP p (parentSel sel) m pad M 0).hops + 1 ≤ 1
              omega
            · show (loopNP p (parentSel sel) m pad M 0).tries + 1 ≤
                n + 1 + ((loopNP p (parentSel sel) m pad M 0).hops + 1) * M
              rw [g1]
              omega
          · rw [if_neg hbig]; exact hbase none
        · rw [if_neg hsmall]; exact hnotsmall shotOk b

/-! ## Claim theorems -/

/-- Claim C2 (counterexample): the address 172.31.255.26 lies in the
numeric 172.16/12 range of the spec, is recognised as IPv4 by the
classifier, and yet `isPrivateIp` classifies it as allowed; conversely
172.160.0.1 is outside every spec range but classified private.  The
cause is the lexicographic string comparison against the bounds
`172.16.0.0` and `172.31.255.255`. -/
theorem private_ip_string_range_cex :
    specPrivateIPv4 172 31 255 26 ∧
    ipv4Str 172 31 255 26 = str "172.31.255.26" ∧
    isIPv4 (str "172.31.255.26") = true ∧
    isPrivateIp (str "172.31.255.26") = false ∧
    isPrivateIp (str "172.160.0.1") = true ∧
    ¬ specPrivateIPv4 172 160 0 1 := by
  decide

/-- Claim C2 (amended): on every well-formed dotted-quad a.b.c.d the
classifier returns true exactly when a = 10, (a,b) = (192,168), a = 127,
(a,b) = (169,254), or the string lies lexicographically between
`172.16.0.0` and `172.31.255.255` (which differs from numeric 172.16/12
membership); on every non-IPv4 string it returns true exactly when the
string is recognised as IPv6 and is literally `::1` or starts with `fc`
or `fd`. -/
theorem private_ip_classifier_amended :
    (∀ a b c d : Nat, a < 256 → b < 256 → c < 256 → d < 256 →
      isPrivateIp (ipv4Str a b c d) =
        (a == 10 || (a == 192 && b == 168) || a == 127 || (a == 169 && b == 254) ||
          (strLe (str "172.16.0.0") (ipv4Str a b c d) &&
            strLe (ipv4Str a b c d) (str "172.31.255.255"))))
    ∧ (∀ s : Str, isIPv4 s = false →
        isPrivateIp s =
          (isIPv6 s && (s == str "::1" || (str "fc").isPrefixOf s || (str "fd").isPrefixOf s))) := by
  constructor
  · exact isPrivateIp_quad
  · intro s hs
    unfold isPrivateIp
    rw [hs]
    simp only [Bool.false_eq_true, if_false]
    by_cases h6 : isIPv6 s = true
    · rw [if_pos h6, h6, Bool.true_and]
    · rw [if_neg h6]
      have hf : isIPv6 s = false := by
        cases hval : isIPv6 s
        · rfl
        · exact absurd hval h6
      rw [hf, Bool.false_and]

/-- Claim C2 (witness): the amended characterisation evaluated at
10.0.0.1, whose classification is true. -/
theorem private_ip_classifier_amended_w :
    isPrivateIp (ipv4Str 10 0 0 1) =
      ((10 : Nat) == 10 || ((10 : Nat) == 192 && (0 : Nat) == 168) || (10 : Nat) == 127 ||
        ((10 : Nat) == 169 && (0 : Nat) == 254) ||
        (strLe (str "172.16.0.0") (ipv4Str 10 0 0 1) &&
          strLe (ipv4Str 10 0 0 1) (str "172.31.255.255"))) :=
  private_ip_classifier_amended.1 10 0 0 1 (by decide) (by decide) (by decide) (by decide)

/-- Claim C3: on a page with a 4x20 element whose parent box is 200x100,
capture does hop to the parent once, but the selector it retries with is
the malformed `#icon > ..`, which a standards-compliant `querySelector`
rejects, so every retry throws and capture degrades to the full-viewport
fallback instead of returning evidence clipped to the parent box expanded
by the padding. -/
theorem parent_fallback_broken :
    pageC3.step (str "#icon") 0 = .found ⟨50, 50, 4, 20⟩ (.box ⟨0, 0, 200, 100⟩) true ∧
    pageC3.step (parentSel (str "#icon")) 0 = .throwEx ∧
    parentSel (str "#icon") = str "#icon > .." ∧
    getElementScreenshot pageC3 (str "#icon") defaultOpts = ⟨some .viewport, 4, 1, 1⟩ ∧
    (getElementScreenshot pageC3 (str "#icon") defaultOpts).res ≠
      some (.element (clipBox ⟨0, 0, 200, 100⟩ 20)) := by
  refine ⟨by decide, by decide, by decide, by decide, by decide⟩

/-- Claim C7: when the locator matches no element on the page, capture
returns null (and, the function being total, no exception escapes). -/
theorem capture_no_element (p : PageModel) (sel : Str) (o : CaptureOpts)
    (h : ∀ i, p.step sel i = .noElement) :
    (getElementScreenshot p sel o).res = none := by
  unfold getElementScreenshot
  by_cases hip : o.includeParent = true
  · rw [if_pos hip]
    cases hm : o.maxAttempts with
    | zero => simp [loopWP]
    | succ n => simp only [loopWP, h 0]
  · rw [if_neg hip]
    cases hm : o.maxAttempts with
    | zero => simp [loopNP]
    | succ n => simp only [loopNP, h 0]

/-- Claim C7 (witness): capture on the empty page returns null. -/
theorem capture_no_element_w :
    (getElementScreenshot pageNone (str "#missing") defaultOpts).res = none :=
  capture_no_element pageNone (str "#missing") defaultOpts (fun _ => rfl)

/-- Claim C8: on every page oracle, selector and option set, the fallback
ladder terminates with at most one parent hop, at most one full-viewport
fallback, and at most `maxAttempts` element-level tries plus a further
`maxAttempts` tries for the single parent hop when it is taken. -/
theorem capture_ladder_bound (p : PageModel) (sel : Str) (o : CaptureOpts) :
    (getElementScreenshot p sel o).hops ≤ 1 ∧
    (getElementScreenshot p sel o).viewShots ≤ 1 ∧
    (getElementScreenshot p sel o).tries ≤
      o.maxAttempts + (getElementScreenshot p sel o).hops * o.maxAttempts := by
  unfold getElementScreenshot
  by_cases hip : o.includeParent = true
  · rw [if_pos hip]
    exact loopWP_bound p sel o.minSize o.viewportPadding o.maxAttempts o.maxAttempts 0
  · rw [if_neg hip]
    obtain ⟨g1, g2, g3⟩ := loopNP_bound p sel o.minSize o.viewportPadding o.maxAttempts 0
    exact ⟨by omega, g2, by omega⟩

/-- Claim C1 (amended): when validation and navigation succeed and the
challenge detector classifies the page as blocked, both engines have
already been invoked, and the internally thrown challenge error is caught
by the catch-all: the scan resolves successfully with a partial result
lacking the page screenshot, instead of aborting. -/
theorem challenge_detected_contained (env : ScanEnv) (lvl : Option Str)
    (hv : validateTarget env = .ok ()) (hg : env.gotoResult = .ok ())
    (hc : challengeDetected env = true) :
    ∃ out : ScanOutput, (runScan env lvl).result = .ok out ∧ out.pageScreenshot = none ∧
      (runScan env lvl).pa11yInvoked = true ∧ (runScan env lvl).axeInvoked = true := by
  unfold runScan
  simp only [hv, hg, hc, if_true]
  refine ⟨_, rfl, rfl, ?_, ?_⟩ <;> trivial

/-- Claim C1 (counterexample): on a rendered page containing exactly the
phrase `checking your browser before accessing` with body text of length
8, the detector classifies blocked, and yet the scan resolves
successfully and both engines were invoked. -/
theorem challenge_detected_cex :
    containsSub (jsLower envC1.content) (str "checking your browser before accessing") = true ∧
    envC1.bodyText.length = 8 ∧
    challengeDetected envC1 = true ∧
    isOkB (runScan envC1 none).result = true ∧
    (runScan envC1 none).pa11yInvoked = true ∧
    (runScan envC1 none).axeInvoked = true :=
  ⟨rfl, rfl, rfl, rfl, rfl, rfl⟩

/-- Claim C1 (witness): the amended containment applied to the concrete
blocked-page scan. -/
theorem challenge_detected_contained_w :
    ∃ out : ScanOutput, (runScan envC1 none).result = .ok out ∧ out.pageScreenshot = none ∧
      (runScan envC1 none).pa11yInvoked = true ∧ (runScan envC1 none).axeInvoked = true :=
  challenge_detected_contained envC1 none rfl rfl rfl

/-- Claim C4 (amended): when navigation throws (in particular on its
90-second timeout), runScan's catch-all converts the failure into a
successfully returned result whose Pa11y section is empty and whose axe
section carries the navigation error message as its error field; the
timeout is not surfaced as a top-level scan failure. -/
theorem nav_timeout_swallowed (env : ScanEnv) (lvl : Option Str) (m : Str)
    (hv : validateTarget env = .ok ()) (hg : env.gotoResult = .error m) :
    runScan env lvl = ⟨.ok ⟨⟨[], [], none⟩, ⟨[], [], some m⟩, none⟩, true, false, false⟩ := by
  unfold runScan
  simp only [hv, hg]

/-- Claim C4 (counterexample): a navigation timeout produces a resolved
scan result, not a thrown failure. -/
theorem nav_timeout_cex :
    envC4.gotoResult = .error (str "Navigation timeout of 90000 ms exceeded") ∧
    runScan envC4 none =
      ⟨.ok ⟨⟨[], [], none⟩,
        ⟨[], [], some (str "Navigation timeout of 90000 ms exceeded")⟩, none⟩,
        true, false, false⟩ :=
  ⟨rfl, rfl⟩

/-- Claim C4 (witness): the amended statement at the concrete
timed-out-navigation scan. -/
theorem nav_timeout_swallowed_w :
    runScan envC4 none =
      ⟨.ok ⟨⟨[], [], none⟩,
        ⟨[], [], some (str "Navigation timeout of 90000 ms exceeded")⟩, none⟩,
        true, false, false⟩ :=
  nav_timeout_swallowed envC4 none (str "Navigation timeout of 90000 ms exceeded") rfl rfl

/-- Claim C5: a hostname that does not resolve makes runScan throw the
invalid-domain error, and a resolved address classified private makes it
throw the forbidden-target error; in both cases no browser is launched
and no engine is invoked. -/
theorem validator_fail_fast (env : ScanEnv) (lvl : Option Str) (h : Str) (addrs : List Str) :
    (env.urlHost = some h → env.dns = .error .notFound →
      runScan env lvl = ⟨.error (str "Invalid or unreachable domain."), false, false, false⟩)
    ∧ (env.urlHost = some h → env.dns = .ok addrs → addrs.any isPrivateIp = true →
      runScan env lvl =
        ⟨.error (str "Scanning internal/private IP addresses is not allowed for security reasons."),
          false, false, false⟩) := by
  constructor
  · intro h1 h2
    unfold runScan validateTarget
    simp only [h1, h2]
  · intro h1 h2 h3
    unfold runScan validateTarget
    simp only [h1, h2, h3, if_true]

/-- Claim C5 (witness): an unresolvable host and a host resolving to
10.0.0.5, both rejected with no browser launch. -/
theorem validator_fail_fast_w :
    runScan envA none = ⟨.error (str "Invalid or unreachable domain."), false, false, false⟩ ∧
    runScan envB none =
      ⟨.error (str "Scanning internal/private IP addresses is not allowed for security reasons."),
        false, false, false⟩ :=
  ⟨(validator_fail_fast envA none (str "no-such-host.example") []).1 rfl rfl,
   (validator_fail_fast envB none (str "intranet.local") [str "10.0.0.5"]).2 rfl rfl (by decide)⟩

/-- Claim C6: if exactly one engine throws, runScan still resolves and the
returned result carries the other engine's findings in full (with
evidence attached) while the failing engine's section is the empty result
set tagged with the failure message. -/
theorem engine_failure_isolated (env : ScanEnv) (lvl : Option Str) (m : Str)
    (po : Pa11yOut) (ao : AxeOut)
    (hv : validateTarget env = .ok ()) (hg : env.gotoResult = .ok ()) :
    (env.pa11yRun (wcagStandardFor lvl) = .error m → env.axeRun (axeTagFor lvl) = .ok ao →
      ∃ out, (runScan env lvl).result = .ok out ∧
        out.axe = ⟨attachAxe env.page ao.violations, ao.passes, none⟩ ∧
        out.pa11y = ⟨[], [], some m⟩)
    ∧ (env.axeRun (axeTagFor lvl) = .error m → env.pa11yRun (wcagStandardFor lvl) = .ok po →
      ∃ out, (runScan env lvl).result = .ok out ∧
        out.pa11y = ⟨attachPa11y env.page po.issues, po.passed, none⟩ ∧
        out.axe = ⟨[], [], some m⟩) := by
  constructor
  · intro hp ha
    unfold runScan
    simp only [hv, hg, hp, ha]
    by_cases hc : challengeDetected env = true
    · rw [if_pos hc]; exact ⟨_, rfl, rfl, rfl⟩
    · rw [if_neg hc]; exact ⟨_, rfl, rfl, rfl⟩
  · intro ha hp
    unfold runScan
    simp only [hv, hg, hp, ha]
    by_cases hc : challengeDetected env = true
    · rw [if_pos hc]; exact ⟨_, rfl, rfl, rfl⟩
    · rw [if_neg hc]; exact ⟨_, rfl, rfl, rfl⟩

/-- Claim C6 (witness): on a scan where Pa11y throws and axe succeeds, the
result keeps the axe findings in full and the Pa11y section is empty with
the failure message. -/
theorem engine_failure_isolated_w :
    ∃ out, (runScan envC6a none).result = .ok out ∧
      out.axe = ⟨attachAxe envC6a.page [⟨5, [⟨[str "h1"], 2⟩]⟩], [9], none⟩ ∧
      out.pa11y = ⟨[], [], some (str "Pa11y crashed")⟩ :=
  (engine_failure_isolated envC6a none (str "Pa11y crashed") ⟨[], []⟩
    ⟨[⟨5, [⟨[str "h1"], 2⟩]⟩], [9]⟩ rfl rfl).1 rfl rfl

/-- Claim C10: for every conformance-level argument other than the exact
string AAA, including the omitted argument, both engines are invoked at
the AA level (`WCAG2AA` for Pa11y, `wcag2aa` for axe), and the scan
behaves exactly as with the argument omitted; no validation rejects
unknown values. -/
theorem wcag_level_default (env : ScanEnv) (lvl : Option Str)
    (hne : lvl ≠ some (str "AAA")) :
    wcagStandardFor lvl = str "WCAG2AA" ∧ axeTagFor lvl = str "wcag2aa" ∧
    runScan env lvl = runScan env none := by
  have hb : (lvl.getD (str "AA") == str "AAA") = false := by
    cases lvl with
    | none => decide
    | some s =>
      simp only [Option.getD_some]
      have hs : s ≠ str "AAA" := fun hh => hne (by rw [hh])
      exact beq_eq_false_iff_ne.mpr hs
  have h1 : wcagStandardFor lvl = str "WCAG2AA" := by
    unfold wcagStandardFor
    rw [hb]
    simp
  have h2 : axeTagFor lvl = str "wcag2aa" := by
    unfold axeTagFor
    rw [hb]
    simp
  refine ⟨h1, h2, ?_⟩
  unfold runScan
  rw [h1, h2, show wcagStandardFor none = str "WCAG2AA" from by decide,
    show axeTagFor none = str "wcag2aa" from by decide]

/-- Claim C10 (witness): the unknown level `silver` behaves exactly like
the default AA level. -/
theorem wcag_level_default_w :
    wcagStandardFor (some (str "silver")) = str "WCAG2AA" ∧
    axeTagFor (some (str "silver")) = str "wcag2aa" ∧
    runScan envC1 (some (str "silver")) = runScan envC1 none :=
  wcag_level_default envC1 (some (str "silver")) (by decide)

/-- Claim C9: when the requester's most recent public report was created
at time t, a public scan request at most 24 hours later is rejected with
the report list unchanged (no job created), a request more than 24 hours
later is accepted and appends the pending public report, and reports of
any non-public kind never influence the decision. -/
theorem public_scan_rate_limit (email : Str) (now : Int) (rs : List Report) (t : Int)
    (hl : latestPublicCreatedAt email rs = some t) :
    (now - t ≤ dayMs → publicScanRequest email now rs = (false, rs))
    ∧ (now - t > dayMs →
        publicScanRequest email now rs = (true, rs ++ [⟨email, str "public", now⟩]))
    ∧ (∀ r : Report, r.rtype ≠ str "public" →
        canScanToday email now (r :: rs) = canScanToday email now rs) := by
  refine ⟨?_, ?_, ?_⟩
  · intro hle
    unfold publicScanRequest canScanToday
    simp only [hl]
    have hd : decide (now - t > dayMs) = false := by
      rw [decide_eq_false_iff_not]
      omega
    rw [hd]
    simp
  · intro hgt
    unfold publicScanRequest canScanToday
    simp only [hl]
    rw [decide_eq_true hgt]
    simp
  · intro r hr
    unfold canScanToday latestPublicCreatedAt
    have hf : (r.email == email && r.rtype == str "public") = false := by
      have ht : (r.rtype == str "public") = false := beq_eq_false_iff_ne.mpr hr
      simp [ht]
    rw [List.filter_cons, hf]
    simp

/-- Claim C9 (witness): one hour after a public report the request is
rejected without creating a job, and 25 hours after it is accepted. -/
theorem public_scan_rate_limit_w :
    publicScanRequest (str "u@example.com") 3600000 rsW = (false, rsW) ∧
    publicScanRequest (str "u@example.com") 90000000 rsW =
      (true, rsW ++ [⟨str "u@example.com", str "public", 90000000⟩]) :=
  ⟨(public_scan_rate_limit (str "u@example.com") 3600000 rsW 0 rfl).1 (by decide),
   (public_scan_rate_limit (str "u@example.com") 90000000 rsW 0 rfl).2.1 (by decide)⟩
